import Mathlib

/-!
Verification of the gyuho/infra resource-provisioning core against its
natural-language specification.

The embedding covers:
* the aws-volume-provisioner command (claim decision, lease check, mkfs
  decision, local state file) from src/unnamed/part_032;
* the EBS convergence poller PollVolume from src/aws/go/ec2/ebs.go;
* the EIP local-state save/load pair EIPs.Sync / LoadEIPs from
  src/unnamed/part_030.
-/

set_option maxHeartbeats 1000000

namespace Infra

/-! ## Go standard-library helpers used by the provisioner -/

/-- Numeric value of a list of decimal digits, most significant first (the
accumulation loop inside Go strconv.ParseInt for base 10). -/
def digitsVal (ds : List Char) : Nat :=
  ds.foldl (fun acc c => acc * 10 + (c.toNat - 48)) 0

/-- Go strconv.ParseInt(s, 10, 64): optional single sign character, then a
nonempty run of decimal digits, and the value must fit in a signed 64-bit
integer; anything else is an error (none). -/
def parseInt64 (s : String) : Option Int :=
  let cs := s.toList
  let signDigits : Bool × List Char :=
    match cs with
    | [] => (false, [])
    | c :: rest =>
      if c = '-' then (true, rest)
      else if c = '+' then (false, rest)
      else (false, cs)
  let neg := signDigits.1
  let ds := signDigits.2
  if ds.isEmpty then none
  else if ds.all Char.isDigit then
    let v : Int := if neg then -(digitsVal ds : Int) else (digitsVal ds : Int)
    if -(2 ^ 63) ≤ v ∧ v ≤ 2 ^ 63 - 1 then some v else none
  else none

/-- Splitting a character list at every occurrence of the separator, keeping
empty segments (the recursion inside Go strings.Split for a one-character
separator). The accumulator holds the current segment in reverse. -/
def splitCharAux (sep : Char) : List Char → List Char → List (List Char)
  | [], acc => [acc.reverse]
  | c :: rest, acc =>
    if c = sep then acc.reverse :: splitCharAux sep rest []
    else splitCharAux sep rest (c :: acc)

/-- Go strings.Split(s, sep) for a one-character separator sep (the source only
splits on the one-character separator under-bar). -/
def stringsSplit (sep : Char) (s : String) : List String :=
  (splitCharAux sep s.toList []).map (fun cs => String.mk cs)

/-! ## Data model: volumes as seen through the EC2 API -/

/-- EC2 volume states (aws-sdk-go-v2 ec2 types.VolumeState). -/
inductive VolumeState where
  | creating
  | available
  | inUse
  | deleting
  | deleted
  | error
deriving DecidableEq

/-- EC2 volume attachment states (aws-sdk-go-v2 ec2 types.VolumeAttachmentState). -/
inductive VolumeAttachmentState where
  | attaching
  | attached
  | detaching
  | detached
  | busy
deriving DecidableEq

/-- A volume as returned by DescribeVolumes, restricted to the fields the
provisioner and the poller actually consult: the volume ID, the volume state,
the states of its attachments (State is the only attachment field read), and
its tags as key/value pairs. -/
structure Volume where
  volumeId : String
  state : VolumeState
  attachments : List VolumeAttachmentState
  tags : List (String × String)
deriving DecidableEq

/-! ## aws-volume-provisioner (src/unnamed/part_032) -/

/-- One observable side effect of a provisioner run, in program order. -/
inductive Action where
  | describeLocalAttached
  | describeAvailable
  | createTags (resourceIDs : List String) (tags : List (String × String))
  | createVolume (volID : String) (leaseValue : String)
  | pollVolumeAvailable (volID : String)
  | attachVolume (volID : String) (instanceID : String)
  | pollVolumeInUse (volID : String)
  | mkfs
  | mountSteps
  | writeVolIDFile (volID : String)
deriving DecidableEq

/-- Whether an action is the CreateVolume call. -/
def isCreateVolume : Action → Bool
  | Action.createVolume _ _ => true
  | _ => false

/-- Whether an action is the mkfs (filesystem creation) call. -/
def isMkfs : Action → Bool
  | Action.mkfs => true
  | _ => false

/-- Outcome of a provisioner run: the emitted action trace, the process exit
code (0 on success, 1 for os.Exit(1)), the volume ID chosen for attachment, and
the final value of the needMkfs variable. -/
structure RunResult where
  actions : List Action
  exitCode : Nat
  attachVolumeID : Option String
  needMkfs : Bool
deriving DecidableEq

/-- The observable world a single provisioner run executes against: the local
instance identity, the wall clock (unix seconds), the response to the two
DescribeVolumes queries, the contents (if any) of the file at curEBSVolIDFile,
and the volume ID the backend would assign to a CreateVolume call. -/
structure World where
  localInstanceID : String
  now : Int
  localAttachedVols : List Volume
  availableVols : List Volume
  cacheContent : Option String
  createdVolID : String

/-- First tag value with the given key. The source iterates describedVols[0].Tags
in order, skipping non-matching keys with continue; every path through the
matching branch ends in break or os.Exit, so only the first match is consulted. -/
def findTag (key : String) (tags : List (String × String)) : Option String :=
  match tags with
  | [] => none
  | (k, v) :: rest => if k = key then some v else findTag key rest

/-- The lease-holder check on the first LeaseHold tag value (part_032 lines
259-299). Except.error models os.Exit(1); Except.ok b is the value of the
reusableVolFoundInAZ flag after the tag loop, given that it was true on entry.
Note that in the source the final else branch (different holder, lease not yet
expired) only logs; it never resets reusableVolFoundInAZ, which therefore
stays true on that path as well. -/
def leaseCheckTag (localInstanceID : String) (now : Int) (value : String) :
    Except Unit Bool :=
  match stringsSplit '_' value with
  | [leaseHolder, lease] =>
    match parseInt64 lease with
    | none => Except.error ()
    | some leasedAt =>
      if leaseHolder = localInstanceID then Except.ok true
      else if now - leasedAt > 600 then Except.ok true
      else Except.ok true
  | _ => Except.error ()

/-- Common tail of cmdFunc after the attach decision (part_032 lines 401-551):
poll to in-use/attached, publish the attached volume ID as a tag on the local
instance, run mkfs only when needMkfs, then the mkdir/lsblk/df/mount/fstab/
mount-all sequence (collapsed into the single mountSteps action: none of it
branches on claim-relevant state), and finally write the current-volume-id
file. These backend and disk operations are modeled as succeeding; each of
their failure paths exits before any further action. -/
def finishRun (publishTagKey : String) (acts : List Action) (needMkfs : Bool)
    (volID : String) (w : World) : RunResult :=
  { actions := acts ++
      [Action.pollVolumeInUse volID,
       Action.createTags [w.localInstanceID] [(publishTagKey, volID)]] ++
      (if needMkfs then [Action.mkfs] else []) ++
      [Action.mountSteps, Action.writeVolIDFile volID]
    exitCode := 0
    attachVolumeID := some volID
    needMkfs := needMkfs }

/-- The else branch of cmdFunc (part_032 lines 206-399): the local instance
has no (single) attached volume, so query the zone for reusable volumes, run
the lease check on the first one, and either renew the lease and reuse it, or
create a brand-new volume (the only path on which needMkfs stays true); in
both cases attach the chosen volume and fall into the common tail. The
reusable-volume retry loop performs exactly one describe call: cancel() is
invoked right after the first DescribeVolumes, so the next loop-condition
check of ctx.Err() fails and the loop exits with the first response. The two
time.Now().UTC().Unix() reads (lease-age comparison at line 290 and the fresh
lease value at line 302) are modeled by the single clock value w.now. -/
def cmdFuncElse (leaseHoldKey publishTagKey : String) (w : World) : RunResult :=
  let acts := [Action.describeLocalAttached, Action.describeAvailable]
  let volLeaseHoldValue := w.localInstanceID ++ "_" ++ toString w.now
  let reuse := fun (v : Volume) =>
    finishRun publishTagKey
      (acts ++
        [Action.createTags [v.volumeId] [(leaseHoldKey, volLeaseHoldValue)],
         Action.attachVolume v.volumeId w.localInstanceID])
      false v.volumeId w
  let createNew :=
    finishRun publishTagKey
      (acts ++
        [Action.createVolume w.createdVolID volLeaseHoldValue,
         Action.pollVolumeAvailable w.createdVolID,
         Action.attachVolume w.createdVolID w.localInstanceID])
      true w.createdVolID w
  match w.availableVols with
  | [] => createNew
  | v :: _ =>
    match findTag leaseHoldKey v.tags with
    | none => reuse v
    | some tagValue =>
      match leaseCheckTag w.localInstanceID w.now tagValue with
      | Except.error _ =>
        { actions := acts
          exitCode := 1
          attachVolumeID := none
          needMkfs := true }
      | Except.ok reusable => if reusable then reuse v else createNew

/-- aws-volume-provisioner cmdFunc (src/unnamed/part_032 lines 105-551) as a
function of the observable world. The metadata/ASG lookups and aws-config
construction are modeled as succeeding (their failures exit before any
claim-relevant action). The file at curEBSVolIDFile (whose startup contents
are w.cacheContent) is never read by the source; it is only written at the
end of a successful run. -/
def cmdFunc (leaseHoldKey publishTagKey : String) (w : World) : RunResult :=
  match w.localAttachedVols with
  | [v] =>
    -- the local instance already has exactly one matching attached volume:
    -- needMkfs becomes false and the run skips straight to the common tail
    finishRun publishTagKey [Action.describeLocalAttached] false v.volumeId w
  | _ => cmdFuncElse leaseHoldKey publishTagKey w

/-! ## PollVolume (src/aws/go/ec2/ebs.go lines 156-293) -/

/-- The errors a VolumeStatus event can carry, one per send site of an error in
PollVolume. ctxDone stands for the context error (deadline exceeded). -/
inductive PollError where
  | emptyVolumeState
  | ctxDone
  | waitStopped
  | describeFailed
  | unexpectedVolumeResponse
  | unexpectedAttachmentResponse
deriving DecidableEq

/-- One event on the PollVolume channel: the described volume, when one was
attached to the event, and the error, when one was. -/
structure VolumeStatus where
  volume : Option Volume
  error : Option PollError
deriving DecidableEq

/-- The complete output of one poll: every event sent on the channel in order,
plus the clock time at which the final event was sent (endTime), in the same
time unit as the interval; the channel is closed after the final event. -/
structure PollResult where
  events : List VolumeStatus
  endTime : Nat
deriving DecidableEq

/-- Prepend one channel event to the rest of a poll. -/
def consEvent (e : VolumeStatus) : Option PollResult → Option PollResult
  | none => none
  | some r => some { r with events := e :: r.events }

/-- Whether the stop channel, closed at time stopAt if ever, is closed by
time t. -/
def stopBy : Option Nat → Nat → Bool
  | none, _ => false
  | some s, t => decide (s ≤ t)

/-- The polling goroutine of PollVolume (ebs.go lines 190-291). Time is a
natural-number clock in the same unit as the interval; the context error
ctx.Err() becomes non-nil once the clock reaches deadline. backend k is the
response of the k-th DescribeVolumes call (error, or the returned volume
list); stopAt is the time at which the caller closes the stop channel, if
ever. When several select cases are ready at the same instant the model
resolves the race in the order ctx.Done, stopc, timer. t is the current clock,
k the describe-call counter, and first records whether this is the very first
iteration (whose wait is zero so an already-converged volume returns without
delay; from the second iteration the wait is the interval). fuel bounds how
many loop iterations the model unfolds; none means the bound was reached
before the source loop had terminated. -/
def pollLoop (interval : Nat) (target : VolumeState)
    (attachTarget : Option VolumeAttachmentState) (deadline : Nat)
    (backend : Nat → Except Unit (List Volume)) (stopAt : Option Nat) :
    Nat → Nat → Nat → Bool → Option PollResult
  | 0, _, _, _ => none
  | fuel + 1, t, k, first =>
    if deadline ≤ t then
      -- the loop condition ctx.Err() == nil fails: send the context error and
      -- close the channel (ebs.go lines 288-290)
      some { events := [{ volume := none, error := some PollError.ctxDone }]
             endTime := t }
    else
      let w := if first then 0 else interval
      if deadline ≤ t + w then
        -- ctx.Done fires during the select wait (lines 198-202)
        some { events := [{ volume := none, error := some PollError.ctxDone }]
               endTime := deadline }
      else if stopBy stopAt (t + w) then
        -- stopc was closed (lines 204-208)
        some { events := [{ volume := none, error := some PollError.waitStopped }]
               endTime := t + w }
      else
        match backend k with
        | Except.error _ =>
          -- describe failed: report and retry on the next tick (lines 220-225)
          consEvent { volume := none, error := some PollError.describeFailed }
            (pollLoop interval target attachTarget deadline backend stopAt
              fuel (t + w) (k + 1) false)
        | Except.ok vols =>
          match vols with
          | [] =>
            if target = VolumeState.deleted then
              -- volume absent and absence is the target: done (lines 227-234)
              some { events := [{ volume := none, error := none }]
                     endTime := t + w }
            else
              -- volume absent, non-delete target: falls into the
              -- len(vols) != 1 branch, report and retry (lines 236-240)
              consEvent { volume := none
                          error := some PollError.unexpectedVolumeResponse }
                (pollLoop interval target attachTarget deadline backend stopAt
                  fuel (t + w) (k + 1) false)
          | [vol] =>
            if vol.state ≠ target then
              -- not yet at the target state: report progress and keep
              -- polling (lines 253-256); there is no early exit for any
              -- state, the error state included
              consEvent { volume := some vol, error := none }
                (pollLoop interval target attachTarget deadline backend stopAt
                  fuel (t + w) (k + 1) false)
            else
              match attachTarget with
              | none =>
                -- desired volume state and no attachment sub-state was
                -- requested: done (lines 258-263)
                some { events := [{ volume := some vol, error := none }]
                       endTime := t + w }
              | some att =>
                match vol.attachments with
                | [a] =>
                  if a = att then
                    -- desired volume and attachment state: done (274-283)
                    some { events := [{ volume := some vol, error := none }]
                           endTime := t + w }
                  else
                    -- attachment not yet in the desired state (line 285)
                    consEvent { volume := some vol, error := none }
                      (pollLoop interval target attachTarget deadline backend
                        stopAt fuel (t + w) (k + 1) false)
                | _ =>
                  -- expected exactly one attachment (lines 265-269)
                  consEvent { volume := some vol
                              error := some PollError.unexpectedAttachmentResponse }
                    (pollLoop interval target attachTarget deadline backend
                      stopAt fuel (t + w) (k + 1) false)
          | _ =>
            -- more than one volume matched: report and retry (lines 236-240)
            consEvent { volume := none
                        error := some PollError.unexpectedVolumeResponse }
              (pollLoop interval target attachTarget deadline backend stopAt
                fuel (t + w) (k + 1) false)

/-- PollVolume (ebs.go lines 162-293): an empty desired volume state yields a
single error event before the goroutine starts; otherwise the polling loop
starts at clock 0, on describe call 0, with a zero-length first wait. -/
def PollVolume (interval : Nat) (volumeState : Option VolumeState)
    (volumeAttachmentState : Option VolumeAttachmentState) (deadline : Nat)
    (backend : Nat → Except Unit (List Volume)) (stopAt : Option Nat)
    (fuel : Nat) : Option PollResult :=
  match volumeState with
  | none =>
    some { events := [{ volume := none, error := some PollError.emptyVolumeState }]
           endTime := 0 }
  | some target =>
    pollLoop interval target volumeAttachmentState deadline backend stopAt
      fuel 0 0 true

/-! ## EIP local state: EIPs.Sync and LoadEIPs (src/unnamed/part_030) -/

/-- JSON documents, at the level encoding/json operates on. -/
inductive Json where
  | null
  | str (s : String)
  | num (n : Int)
  | arr (xs : List Json)
  | obj (fields : List (String × Json))

/-- An elastic IP record with its two json-tagged fields
(allocation_id, public_ip). -/
structure EIP where
  AllocationID : String
  PublicIP : String
deriving DecidableEq

/-- The EIPs slice type. -/
def EIPs := List EIP

/-- json.Marshal of one EIP value: an object with the two tagged fields in
struct order. -/
def marshalEIP (e : EIP) : Json :=
  Json.obj [("allocation_id", Json.str e.AllocationID),
            ("public_ip", Json.str e.PublicIP)]

/-- json.Marshal of an EIPs slice: the array of the marshaled elements. -/
def marshalEIPs (es : EIPs) : Json :=
  Json.arr (es.map marshalEIP)

/-- First field with the given key in a JSON object. -/
def lookupField (fields : List (String × Json)) (key : String) : Option Json :=
  match fields with
  | [] => none
  | (k, v) :: rest => if k = key then some v else lookupField rest key

/-- json.Unmarshal into a string struct field: a missing key leaves the zero
value, a present key must hold a JSON string, anything else is a type error. -/
def getStrField (fields : List (String × Json)) (key : String) : Option String :=
  match lookupField fields key with
  | none => some ""
  | some (Json.str s) => some s
  | some _ => none

/-- json.Unmarshal of one EIP value out of a JSON document. -/
def unmarshalEIP : Json → Option EIP
  | Json.obj fields =>
    match getStrField fields "allocation_id", getStrField fields "public_ip" with
    | some a, some p => some { AllocationID := a, PublicIP := p }
    | _, _ => none
  | _ => none

/-- Element-wise decode of a JSON array into EIP values (the array loop of
encoding/json). -/
def unmarshalEIPList : List Json → Option (List EIP)
  | [] => some []
  | j :: rest =>
    match unmarshalEIP j, unmarshalEIPList rest with
    | some e, some es => some (e :: es)
    | _, _ => none

/-- json.Unmarshal of an EIPs slice: null leaves the nil slice, an array
decodes element-wise, any other document is a type error. -/
def unmarshalEIPs : Json → Option EIPs
  | Json.null => some []
  | Json.arr xs => unmarshalEIPList xs
  | _ => none

/-- The filesystem, as a map from paths to the JSON document stored at each
path (most recent write first). -/
def FS := List (String × Json)

/-- os.WriteFile: replace whatever was at path p with the document j. -/
def FS.write (fs : FS) (p : String) (j : Json) : FS :=
  (p, j) :: fs

/-- os.ReadFile: the most recently written document at path p, none when the
file does not exist. -/
def FS.read (fs : FS) (p : String) : Option Json :=
  match fs with
  | [] => none
  | (q, j) :: rest => if q = p then some j else FS.read rest p

/-- EIPs.Sync (part_030 lines 285-300): marshal the slice and write the
resulting document to path p (the MkdirAll for the parent directory is not
modeled; it creates no observable state the claims mention). -/
def EIPs.Sync (e : EIPs) (p : String) (fs : FS) : FS :=
  fs.write p (marshalEIPs e)

/-- LoadEIPs (part_030 lines 310-320): read the file at p and unmarshal it; a
read failure or a document of the wrong shape is an error (none). -/
def LoadEIPs (p : String) (fs : FS) : Option EIPs :=
  match fs.read p with
  | none => none
  | some j => unmarshalEIPs j

/-! ## Concrete inputs used to evaluate the model -/

/-- A volume already in the desired available state, with no tags. -/
def volOK : Volume := ⟨"vol-ok", VolumeState.available, [], []⟩

/-- A volume stuck in the terminal error state. -/
def volErr : Volume := ⟨"vol-x", VolumeState.error, [], []⟩

/-- A volume that stays in the creating state forever. -/
def volCreating : Volume := ⟨"vol-c", VolumeState.creating, [], []⟩

/-- An available volume carrying no LeaseHold tag. -/
def volPlain : Volume := ⟨"vol-1", VolumeState.available, [], []⟩

/-- A run in which the one reusable volume in the zone is leased by another
instance (holder i-old, leased at unix second 1000) and the lease is far from
expired at the current clock 1100 (age 100 s, timeout 600 s). -/
def wUnexpired : World :=
  { localInstanceID := "i-new", now := 1100,
    localAttachedVols := [],
    availableVols :=
      [⟨"vol-1", VolumeState.available, [], [("LeaseHold", "i-old_1000")]⟩],
    cacheContent := none, createdVolID := "vol-created" }

/-- A run in which the local state file exists (recording vol-cached) while the
backend shows no attached volume and one reusable untagged volume. -/
def wCached : World :=
  { localInstanceID := "i-a", now := 5000,
    localAttachedVols := [],
    availableVols := [volPlain],
    cacheContent := some "vol-cached", createdVolID := "vol-new" }

/-- A run in which the reusable volume carries a malformed LeaseHold tag value
(no under-bar separator at all). -/
def wMalformed : World :=
  { localInstanceID := "i-new", now := 1100,
    localAttachedVols := [],
    availableVols :=
      [⟨"vol-1", VolumeState.available, [], [("LeaseHold", "garbage")]⟩],
    cacheContent := none, createdVolID := "vol-created" }

/-- A run in which the reusable volume was leased by another instance at unix
second 0 and the clock is already at 1000, so the lease is stale (age 1000 s
is greater than the 600 s timeout). -/
def wStale : World :=
  { localInstanceID := "i-new", now := 1000,
    localAttachedVols := [],
    availableVols :=
      [⟨"vol-1", VolumeState.available, [], [("LeaseHold", "i-old_0")]⟩],
    cacheContent := none, createdVolID := "vol-created" }

/-! ## Theorems -/

/-- Claim C1 (the code contradicts it): in the run wUnexpired the reusable
volume is leased by a different holder and the lease is only 100 seconds old,
far within the 600-second timeout, so per the claim (and the comment at
part_032 lines 278-281 and the log message at line 295) the claim attempt must
be rejected, the tag left unchanged, and a brand-new volume created. The code
never resets reusableVolFoundInAZ in the not-expired branch, so the run
instead exits successfully having overwritten the LeaseHold tag with its own
identity and reused the volume, creating nothing. -/
theorem C1_unexpired_foreign_lease_is_taken_over :
    (cmdFunc "LeaseHold" "PUB" wUnexpired).exitCode = 0 ∧
    (cmdFunc "LeaseHold" "PUB" wUnexpired).attachVolumeID = some "vol-1" ∧
    Action.createTags ["vol-1"] [("LeaseHold", "i-new_1100")] ∈
      (cmdFunc "LeaseHold" "PUB" wUnexpired).actions ∧
    (cmdFunc "LeaseHold" "PUB" wUnexpired).actions.any isCreateVolume = false := by
  decide

/-- In the else branch, the mkfs action appears in the trace exactly when the
CreateVolume action does. -/
theorem cmdFuncElse_any_mkfs_eq_any_create (leaseHoldKey publishTagKey : String)
    (w : World) :
    (cmdFuncElse leaseHoldKey publishTagKey w).actions.any isMkfs =
      (cmdFuncElse leaseHoldKey publishTagKey w).actions.any isCreateVolume := by
  rcases w with ⟨lid, now, lav, av, cc, cv⟩
  rcases av with _ | ⟨v, rest⟩
  · simp [cmdFuncElse, finishRun, isMkfs, isCreateVolume]
  · rcases hft : findTag leaseHoldKey v.tags with _ | tv
    · simp [cmdFuncElse, hft, finishRun, isMkfs, isCreateVolume]
    · rcases hlc : leaseCheckTag lid now tv with e | b
      · simp [cmdFuncElse, hft, hlc, isMkfs, isCreateVolume]
      · rcases b with _ | _ <;>
          simp [cmdFuncElse, hft, hlc, finishRun, isMkfs, isCreateVolume]

/-- Claim C3: the mkfs step appears in the action trace of a provisioner run
exactly when the CreateVolume call does; on the already-attached path and on
the lease-reuse path needMkfs is false and the mkfs branch is unreachable. -/
theorem C3_mkfs_iff_created_new_volume (leaseHoldKey publishTagKey : String)
    (w : World) :
    (cmdFunc leaseHoldKey publishTagKey w).actions.any isMkfs =
      (cmdFunc leaseHoldKey publishTagKey w).actions.any isCreateVolume := by
  rcases w with ⟨lid, now, lav, av, cc, cv⟩
  rcases lav with _ | ⟨v0, _ | ⟨v1, lrest⟩⟩
  · exact cmdFuncElse_any_mkfs_eq_any_create leaseHoldKey publishTagKey _
  · simp [cmdFunc, finishRun, isMkfs, isCreateVolume]
  · exact cmdFuncElse_any_mkfs_eq_any_create leaseHoldKey publishTagKey _

/-- A well-formed lease tag value always leaves the reuse flag true: the
holder-equal branch and the stale branch set it explicitly, and the
not-expired branch never resets it. -/
theorem leaseCheckTag_ok (lid : String) (now : Int) (value h l : String)
    (leasedAt : Int) (hsplit : stringsSplit '_' value = [h, l])
    (hparse : parseInt64 l = some leasedAt) :
    leaseCheckTag lid now value = Except.ok true := by
  unfold leaseCheckTag
  rw [hsplit]
  dsimp only
  rw [hparse]
  by_cases hh : h = lid <;> by_cases hd : now - leasedAt > 600 <;>
    simp [hh, hd]

/-- Whenever the run does not take the single-attached-volume branch, cmdFunc
is cmdFuncElse. -/
theorem cmdFunc_eq_else (leaseHoldKey publishTagKey : String) (w : World)
    (hloc : w.localAttachedVols.length ≠ 1) :
    cmdFunc leaseHoldKey publishTagKey w =
      cmdFuncElse leaseHoldKey publishTagKey w := by
  rcases w with ⟨lid, now, lav, av, cc, cv⟩
  rcases lav with _ | ⟨v0, _ | ⟨v1, lrest⟩⟩
  · rfl
  · exact absurd rfl hloc
  · rfl

/-- Claim C2: when the first reusable volume in the zone carries a LeaseHold
value held by a different instance whose timestamp is more than 600 seconds in
the past, the provisioner reuses that volume: it overwrites the LeaseHold tag
with its own instance ID and the current unix timestamp, attaches the volume,
creates no new volume, and exits zero. -/
theorem C2_stale_lease_takeover (leaseHoldKey publishTagKey : String)
    (w : World) (v : Volume) (rest : List Volume)
    (tagValue holder lease : String) (leasedAt : Int)
    (hloc : w.localAttachedVols.length ≠ 1)
    (hav : w.availableVols = v :: rest)
    (htag : findTag leaseHoldKey v.tags = some tagValue)
    (hsplit : stringsSplit '_' tagValue = [holder, lease])
    (hparse : parseInt64 lease = some leasedAt)
    (hdiff : holder ≠ w.localInstanceID)
    (hstale : w.now - leasedAt > 600) :
    (cmdFunc leaseHoldKey publishTagKey w).attachVolumeID = some v.volumeId ∧
    Action.createTags [v.volumeId]
        [(leaseHoldKey, w.localInstanceID ++ "_" ++ toString w.now)] ∈
      (cmdFunc leaseHoldKey publishTagKey w).actions ∧
    (cmdFunc leaseHoldKey publishTagKey w).actions.any isCreateVolume = false ∧
    (cmdFunc leaseHoldKey publishTagKey w).exitCode = 0 := by
  rw [cmdFunc_eq_else leaseHoldKey publishTagKey w hloc]
  have hlease := leaseCheckTag_ok w.localInstanceID w.now tagValue holder lease
    leasedAt hsplit hparse
  rcases w with ⟨lid, now, lav, av, cc, cv⟩
  subst hav
  simp only at htag hlease
  simp [cmdFuncElse, htag, hlease, finishRun, isCreateVolume]

/-- Witness for C2: the concrete stale-lease run wStale (holder i-old, leased
at 0, clock 1000). -/
theorem C2_stale_lease_takeover_witness :
    (cmdFunc "LeaseHold" "PUB" wStale).attachVolumeID = some "vol-1" ∧
    Action.createTags ["vol-1"] [("LeaseHold", "i-new" ++ "_" ++ toString (1000 : Int))] ∈
      (cmdFunc "LeaseHold" "PUB" wStale).actions ∧
    (cmdFunc "LeaseHold" "PUB" wStale).actions.any isCreateVolume = false ∧
    (cmdFunc "LeaseHold" "PUB" wStale).exitCode = 0 :=
  C2_stale_lease_takeover "LeaseHold" "PUB" wStale
    ⟨"vol-1", VolumeState.available, [], [("LeaseHold", "i-old_0")]⟩ []
    "i-old_0" "i-old" "0" 0
    (by decide) rfl rfl (by decide) (by decide) (by decide) (by decide)

/-- A malformed lease tag value (wrong number of under-bar segments, or a
second segment that is not a base-10 64-bit integer) makes the lease check
exit. -/
theorem leaseCheckTag_error (lid : String) (now : Int) (value : String)
    (hmal : (stringsSplit '_' value).length ≠ 2 ∨
      ∃ a b, stringsSplit '_' value = [a, b] ∧ parseInt64 b = none) :
    leaseCheckTag lid now value = Except.error () := by
  unfold leaseCheckTag
  rcases hmal with hlen | ⟨a, b, hab, hpb⟩
  · rcases hss : stringsSplit '_' value with _ | ⟨x, _ | ⟨y, _ | ⟨z, t⟩⟩⟩
    · rfl
    · rfl
    · rw [hss] at hlen; exact absurd rfl hlen
    · rfl
  · rw [hab]
    dsimp only
    rw [hpb]

/-- Claim C10: a malformed LeaseHold tag value on the candidate volume makes
the provisioner exit non-zero at once: the run performs only the two describe
queries — no tag write, no volume creation, no attach, no mkfs. -/
theorem C10_malformed_lease_value_exits (leaseHoldKey publishTagKey : String)
    (w : World) (v : Volume) (rest : List Volume) (tagValue : String)
    (hloc : w.localAttachedVols.length ≠ 1)
    (hav : w.availableVols = v :: rest)
    (htag : findTag leaseHoldKey v.tags = some tagValue)
    (hmal : (stringsSplit '_' tagValue).length ≠ 2 ∨
      ∃ a b, stringsSplit '_' tagValue = [a, b] ∧ parseInt64 b = none) :
    cmdFunc leaseHoldKey publishTagKey w =
      { actions := [Action.describeLocalAttached, Action.describeAvailable]
        exitCode := 1
        attachVolumeID := none
        needMkfs := true } := by
  rw [cmdFunc_eq_else leaseHoldKey publishTagKey w hloc]
  have hlease := leaseCheckTag_error w.localInstanceID w.now tagValue hmal
  rcases w with ⟨lid, now, lav, av, cc, cv⟩
  subst hav
  simp only at htag hlease
  simp [cmdFuncElse, htag, hlease]

/-- Witness for C10: the concrete run wMalformed whose lease value garbage has
no under-bar separator. -/
theorem C10_malformed_lease_value_exits_witness :
    cmdFunc "LeaseHold" "PUB" wMalformed =
      { actions := [Action.describeLocalAttached, Action.describeAvailable]
        exitCode := 1
        attachVolumeID := none
        needMkfs := true } :=
  C10_malformed_lease_value_exits "LeaseHold" "PUB" wMalformed
    ⟨"vol-1", VolumeState.available, [], [("LeaseHold", "garbage")]⟩ [] "garbage"
    (by decide) rfl rfl (Or.inl (by decide))

/-- Claim C8 (the code contradicts it): in the run wCached the backend shows
no attached volume and the local state file holds vol-cached, yet the
provisioner never consults it: it queries the backend for reusable volumes,
runs the lease claim race (writing a fresh LeaseHold tag), and attaches vol-1
rather than the cached ID. -/
theorem C8_cache_present_but_claim_race_runs :
    wCached.localAttachedVols = [] ∧
    wCached.cacheContent = some "vol-cached" ∧
    (cmdFunc "LeaseHold" "PUB" wCached).attachVolumeID = some "vol-1" ∧
    (cmdFunc "LeaseHold" "PUB" wCached).attachVolumeID ≠ wCached.cacheContent ∧
    Action.describeAvailable ∈ (cmdFunc "LeaseHold" "PUB" wCached).actions ∧
    Action.createTags ["vol-1"] [("LeaseHold", "i-a_5000")] ∈
      (cmdFunc "LeaseHold" "PUB" wCached).actions := by
  decide

/-- Claim C8 amended: the volume provisioner never reads the local state file
— its outcome is identical for every cache content — and whenever the backend
shows no single attached volume it goes straight to the backend query for
reusable volumes. -/
theorem C8_amended_cache_never_read (leaseHoldKey publishTagKey : String)
    (w : World) (c : Option String) :
    cmdFunc leaseHoldKey publishTagKey { w with cacheContent := c } =
      cmdFunc leaseHoldKey publishTagKey w ∧
    (w.localAttachedVols.length ≠ 1 →
      Action.describeAvailable ∈ (cmdFunc leaseHoldKey publishTagKey w).actions) := by
  constructor
  · rfl
  · intro hloc
    rw [cmdFunc_eq_else leaseHoldKey publishTagKey w hloc]
    rcases w with ⟨lid, now, lav, av, cc, cv⟩
    rcases av with _ | ⟨v, rest⟩
    · simp [cmdFuncElse, finishRun]
    · rcases hft : findTag leaseHoldKey v.tags with _ | tv
      · simp [cmdFuncElse, hft, finishRun]
      · rcases hlc : leaseCheckTag lid now tv with e | b
        · simp [cmdFuncElse, hft, hlc]
        · rcases b with _ | _ <;> simp [cmdFuncElse, hft, hlc, finishRun]

/-- Witness for the amended C8: applied to the concrete run wCached with the
cache overridden to empty. -/
theorem C8_amended_cache_never_read_witness :
    Action.describeAvailable ∈ (cmdFunc "LeaseHold" "PUB" wCached).actions :=
  (C8_amended_cache_never_read "LeaseHold" "PUB" wCached none).2 (by decide)

/-- Claim C4: when the very first describe already reports the target state
and no attachment sub-state was requested, the poll emits exactly one event
(the converged volume, no error) and ends at clock 0: the first query ran with
zero wait and no polling interval was waited. -/
theorem C4_poll_already_converged (interval deadline fuel : Nat)
    (target : VolumeState) (vol : Volume)
    (backend : Nat → Except Unit (List Volume))
    (hd : 1 ≤ deadline) (hf : 1 ≤ fuel)
    (hb : backend 0 = Except.ok [vol]) (hs : vol.state = target) :
    PollVolume interval (some target) none deadline backend none fuel =
      some { events := [{ volume := some vol, error := none }]
             endTime := 0 } := by
  obtain ⟨f, rfl⟩ : ∃ f, fuel = f + 1 := ⟨fuel - 1, by omega⟩
  have h0 : ¬ deadline ≤ 0 := by omega
  simp [PollVolume, pollLoop, h0, stopBy, hb, hs]

/-- Witness for C4: a volume already available, interval 7, deadline 5. -/
theorem C4_poll_already_converged_witness :
    PollVolume 7 (some VolumeState.available) none 5
        (fun _ => Except.ok [volOK]) none 3 =
      some { events := [{ volume := some volOK, error := none }]
             endTime := 0 } :=
  C4_poll_already_converged 7 5 3 VolumeState.available volOK _
    (by decide) (by decide) rfl rfl

/-- When every describe returns one volume that is never in the target state,
the loop runs until the clock reaches the deadline and closes with the
context error; the invariant on fuel keeps one iteration of slack for the
zero-wait first tick. -/
theorem pollLoop_never_target_hits_deadline (interval : Nat)
    (target : VolumeState) (attachTarget : Option VolumeAttachmentState)
    (deadline : Nat) (backend : Nat → Except Unit (List Volume))
    (hint : 1 ≤ interval)
    (hb : ∀ k, ∃ v, backend k = Except.ok [v] ∧ v.state ≠ target) :
    ∀ fuel t k first, deadline - t + (if first then 2 else 1) ≤ fuel →
      ∃ r, pollLoop interval target attachTarget deadline backend none
          fuel t k first = some r ∧
        r.events ≠ [] ∧
        r.events.getLast? =
          some { volume := none, error := some PollError.ctxDone } ∧
        deadline ≤ r.endTime := by
  intro fuel
  induction fuel with
  | zero =>
    intro t k first h
    exfalso
    cases first <;> simp at h
  | succ f ih =>
    intro t k first h
    by_cases ht : deadline ≤ t
    · refine ⟨{ events := [{ volume := none, error := some PollError.ctxDone }]
                endTime := t }, ?_, by simp, by simp, ht⟩
      simp only [pollLoop]
      rw [if_pos ht]
    · by_cases htw : deadline ≤ t + (if first then 0 else interval)
      · refine ⟨{ events := [{ volume := none, error := some PollError.ctxDone }]
                  endTime := deadline }, ?_, by simp, by simp, le_refl _⟩
        simp only [pollLoop]
        rw [if_neg ht, if_pos htw]
      · obtain ⟨v, hbk, hvs⟩ := hb k
        have harith : deadline - (t + (if first then 0 else interval)) + 1 ≤ f := by
          cases first <;> simp at h htw ⊢ <;> omega
        obtain ⟨r, hr, hne, hlast, hend⟩ :=
          ih (t + (if first then 0 else interval)) (k + 1) false harith
        refine ⟨{ events := { volume := some v, error := none } :: r.events
                  endTime := r.endTime }, ?_, by simp, ?_, hend⟩
        · simp only [pollLoop]
          rw [if_neg ht, if_neg htw]
          simp [stopBy, hbk, hvs, consEvent, hr]
        · rcases hev : r.events with _ | ⟨x, xs⟩
          · exact absurd hev hne
          · rw [hev] at hlast
            simpa [List.getLast?_cons_cons] using hlast

/-- Claim C5: against a volume that never reaches the target state the poll
terminates (with fuel at least deadline + 2 the model returns a result), its
final event carries the context deadline error, and that event is delivered
at or after the deadline. -/
theorem C5_poll_never_target_terminates_at_deadline
    (interval deadline fuel : Nat) (target : VolumeState)
    (attachTarget : Option VolumeAttachmentState)
    (backend : Nat → Except Unit (List Volume))
    (hint : 1 ≤ interval)
    (hb : ∀ k, ∃ v, backend k = Except.ok [v] ∧ v.state ≠ target)
    (hf : deadline + 2 ≤ fuel) :
    ∃ r, PollVolume interval (some target) attachTarget deadline backend
        none fuel = some r ∧
      r.events ≠ [] ∧
      r.events.getLast? =
        some { volume := none, error := some PollError.ctxDone } ∧
      deadline ≤ r.endTime := by
  have hmain := pollLoop_never_target_hits_deadline interval target attachTarget
    deadline backend hint hb fuel 0 0 true (by simpa using hf)
  simpa [PollVolume] using hmain

/-- Witness for C5: interval 1, deadline 2, a volume forever creating while
the target is available, fuel 4. -/
theorem C5_poll_never_target_terminates_at_deadline_witness :
    ∃ r, PollVolume 1 (some VolumeState.available) none 2
        (fun _ => Except.ok [volCreating]) none 4 = some r ∧
      r.events ≠ [] ∧
      r.events.getLast? =
        some { volume := none, error := some PollError.ctxDone } ∧
      2 ≤ r.endTime :=
  C5_poll_never_target_terminates_at_deadline 1 2 4 VolumeState.available none _
    (by decide) (fun k => ⟨volCreating, rfl, by decide⟩) (by decide)

/-- Claim C6 (the code contradicts it): polling for in-use with interval 1 and
deadline 2 against a volume stuck in the terminal error state emits the
error-state volume as an ordinary no-error event, keeps polling, and only
stops when the deadline delivers the context error — three events in all,
none of them an immediate unrecoverable terminal-state error. -/
theorem C6_error_state_does_not_stop_polling :
    volErr.state = VolumeState.error ∧
    PollVolume 1 (some VolumeState.inUse) none 2
        (fun _ => Except.ok [volErr]) none 10 =
      some { events := [{ volume := some volErr, error := none },
                        { volume := some volErr, error := none },
                        { volume := none, error := some PollError.ctxDone }]
             endTime := 2 } := by
  decide

/-- Claim C6 amended: the poller has no notion of a terminal failure state: a
volume observed in the error state while the context is still live is
reported as an event with no error and the loop simply continues with the
next tick. -/
theorem C6_amended_terminal_state_keeps_polling (interval : Nat)
    (target : VolumeState) (attachTarget : Option VolumeAttachmentState)
    (deadline : Nat) (backend : Nat → Except Unit (List Volume))
    (stopAt : Option Nat) (fuel t k : Nat) (first : Bool) (v : Volume)
    (ht : ¬ deadline ≤ t)
    (htw : ¬ deadline ≤ t + (if first then 0 else interval))
    (hstop : stopBy stopAt (t + (if first then 0 else interval)) = false)
    (hb : backend k = Except.ok [v]) (hv : v.state = VolumeState.error)
    (htgt : target ≠ VolumeState.error) :
    pollLoop interval target attachTarget deadline backend stopAt
        (fuel + 1) t k first =
      consEvent { volume := some v, error := none }
        (pollLoop interval target attachTarget deadline backend stopAt fuel
          (t + (if first then 0 else interval)) (k + 1) false) := by
  have hvs : v.state ≠ target := by
    rw [hv]
    exact fun hh => htgt hh.symm
  simp only [pollLoop]
  rw [if_neg ht, if_neg htw]
  simp [hstop, hb, hvs]

/-- Witness for the amended C6: first tick of the concrete error-state poll. -/
theorem C6_amended_terminal_state_keeps_polling_witness :
    pollLoop 1 VolumeState.inUse none 2 (fun _ => Except.ok [volErr]) none
        6 0 0 true =
      consEvent { volume := some volErr, error := none }
        (pollLoop 1 VolumeState.inUse none 2 (fun _ => Except.ok [volErr])
          none 5 0 1 false) :=
  C6_amended_terminal_state_keeps_polling 1 VolumeState.inUse none 2 _ none
    5 0 0 true volErr (by decide) (by decide) (by decide) rfl rfl (by decide)

/-- Claim C7 (the code contradicts its second half): polling for available
with interval 1 and deadline 2 against a backend that always reports the
volume absent emits an unexpected-volume-response error event on every tick
and keeps retrying until the deadline — absence with a non-delete target is
retried, not treated as an unrecoverable termination. -/
theorem C7_absence_with_nondelete_target_is_retried :
    PollVolume 1 (some VolumeState.available) none 2
        (fun _ => Except.ok []) none 10 =
      some { events :=
              [{ volume := none, error := some PollError.unexpectedVolumeResponse },
               { volume := none, error := some PollError.unexpectedVolumeResponse },
               { volume := none, error := some PollError.ctxDone }]
             endTime := 2 } := by
  decide

/-- Claim C7 amended: when the backend reports no volume and the context is
still live, a delete target terminates the sequence at once with a nil-error
event, while any other target emits an unexpected-volume-response error event
and retries on the next tick. -/
theorem C7_amended_absent_volume_behavior (interval : Nat)
    (target : VolumeState) (attachTarget : Option VolumeAttachmentState)
    (deadline : Nat) (backend : Nat → Except Unit (List Volume))
    (stopAt : Option Nat) (fuel t k : Nat) (first : Bool)
    (ht : ¬ deadline ≤ t)
    (htw : ¬ deadline ≤ t + (if first then 0 else interval))
    (hstop : stopBy stopAt (t + (if first then 0 else interval)) = false)
    (hb : backend k = Except.ok []) :
    pollLoop interval target attachTarget deadline backend stopAt
        (fuel + 1) t k first =
      if target = VolumeState.deleted then
        some { events := [{ volume := none, error := none }]
               endTime := t + (if first then 0 else interval) }
      else
        consEvent { volume := none
                    error := some PollError.unexpectedVolumeResponse }
          (pollLoop interval target attachTarget deadline backend stopAt fuel
            (t + (if first then 0 else interval)) (k + 1) false) := by
  simp only [pollLoop]
  rw [if_neg ht, if_neg htw]
  simp [hstop, hb]

/-- Witness for the amended C7: first tick of the concrete absent-volume poll
with a non-delete target. -/
theorem C7_amended_absent_volume_behavior_witness :
    pollLoop 1 VolumeState.available none 2 (fun _ => Except.ok []) none
        6 0 0 true =
      consEvent { volume := none
                  error := some PollError.unexpectedVolumeResponse }
        (pollLoop 1 VolumeState.available none 2 (fun _ => Except.ok [])
          none 5 0 1 false) :=
  (C7_amended_absent_volume_behavior 1 VolumeState.available none 2 _ none
    5 0 0 true (by decide) (by decide) (by decide) rfl).trans
    (if_neg (by decide))

/-- Unmarshaling the marshaled form of one EIP returns it unchanged. -/
theorem unmarshalEIP_marshalEIP (e : EIP) :
    unmarshalEIP (marshalEIP e) = some e := rfl

/-- Unmarshaling a marshaled EIP list returns it unchanged. -/
theorem unmarshalEIPList_map_marshalEIP (es : List EIP) :
    unmarshalEIPList (es.map marshalEIP) = some es := by
  induction es with
  | nil => rfl
  | cons e t ih => simp [unmarshalEIPList, unmarshalEIP_marshalEIP e, ih]

/-- Claim C9: for every EIP list, path and prior filesystem, EIPs.Sync
followed by LoadEIPs on the same path with no intervening write returns
exactly the list that was saved. -/
theorem C9_eips_sync_load_roundtrip (es : EIPs) (p : String) (fs : FS) :
    LoadEIPs p (EIPs.Sync es p fs) = some es := by
  have hread : FS.read (EIPs.Sync es p fs) p = some (marshalEIPs es) := by
    simp [EIPs.Sync, FS.write, FS.read]
  simp [LoadEIPs, hread, marshalEIPs, unmarshalEIPs,
    unmarshalEIPList_map_marshalEIP es]

end Infra
